import Mathlib

/-!
Shallow embedding of parts of the myq2 renderer (C sources under ref_gl/ and
myq2-original/ref_gl/, GLSL shaders under crates/myq2-renderer/shaders/),
with theorems about image upload alpha classification, the reflector list,
screenshot naming, palette desaturation, the water/world/sky fragment paths,
image lookup, the unused-image sweep, and the scrap-atlas pic path.
-/

namespace MyQ2

/-! ### Image upload (gl_image.c): GL_Upload32 alpha classification -/

/-- GL internal format constants from gl_image.c: `int gl_solid_format = 3;`. -/
def gl_solid_format : Nat := 3

/-- GL internal format constants from gl_image.c: `int gl_alpha_format = 4;`. -/
def gl_alpha_format : Nat := 4

/-- One RGBA pixel as stored in the 32-bit upload buffer (one byte per gun). -/
structure Pixel where
  r : Nat
  g : Nat
  b : Nat
  a : Nat
deriving DecidableEq, Repr

/-- The scan loop of GL_Upload32 (lines 1251-1260): walk the pixels, and on the
first alpha byte that is not 255 set `samples = gl_alpha_format` and break;
otherwise `samples` stays `gl_solid_format`. -/
def scanAlphaSamples : List Pixel → Nat
  | [] => gl_solid_format
  | p :: rest => if p.a ≠ 255 then gl_alpha_format else scanAlphaSamples rest

/-- `samples` as computed by GL_Upload32: the scan runs only when `bpp != 24`. -/
def GL_Upload32_samples (data : List Pixel) (bpp : Nat) : Nat :=
  if bpp ≠ 24 then scanAlphaSamples data else gl_solid_format

/-- The return value of GL_Upload32 (line 1341): `samples == gl_alpha_format`. -/
def GL_Upload32_has_alpha (data : List Pixel) (bpp : Nat) : Bool :=
  GL_Upload32_samples data bpp == gl_alpha_format

/-! ### Reflection controller (gl_refl.c): R_clear_refl / R_add_refl -/

/-- `#define MAX_REFL 2` (gl_refl.h, included at gl_refl.c line 437). -/
def MAX_REFL : Nat := 2

/-- `R_clear_refl` sets `g_num_refl = 0`: the reflector list becomes empty.
The list models `g_refl_Z[0..g_num_refl)`. -/
def R_clear_refl : List ℚ := []

/-- `R_add_refl(Z)` (gl_refl.c lines 73-96): scan `g_refl_Z[0..g_num_refl)` for a
duplicate and return if found; otherwise append only if `g_num_refl < MAX_REFL`. -/
def R_add_refl (refl : List ℚ) (Z : ℚ) : List ℚ :=
  if Z ∈ refl then refl
  else if refl.length < MAX_REFL then refl ++ [Z] else refl

/-- The spec's "first-discovery order, deduplicated" list: append each newly seen
Z at the tail, keeping only first occurrences (no capacity cap). -/
def discoveryOrder (zs : List ℚ) : List ℚ :=
  zs.foldl (fun acc z => if z ∈ acc then acc else acc ++ [z]) []

/-- Running a whole frame's worth of `R_add_refl` calls from a cleared list. -/
def runReflCalls (zs : List ℚ) : List ℚ :=
  zs.foldl R_add_refl R_clear_refl

/-! ### Screenshot command (gl_rmisc.c): GL_ScreenShot_f -/

/-- The file name scheme of GL_ScreenShot_f (lines 168-173):
"quake00.tga" with `picname[5] = i/10 + '0'` and `picname[6] = i%10 + '0'`. -/
def picname (i : Nat) : String :=
  "quake" ++ String.mk [Char.ofNat (i / 10 + 48), Char.ofNat (i % 10 + 48)] ++ ".tga"

/-- The scan loop of GL_ScreenShot_f (lines 170-179): starting at index `i` with
`fuel` indices left to try, return the first index whose file does not exist
(`fopen` returns NULL), else none.  The C loop runs `i = 0..99`, i.e. fuel 100.
`ex i` tells whether file `picname i` already exists. -/
def scanShot (ex : Nat → Bool) : Nat → Nat → Option Nat
  | _, 0 => none
  | i, fuel + 1 => if ex i then scanShot ex (i + 1) fuel else some i

/-- Outcome of the screenshot command: the index written to (if any) and the
console message printed. -/
structure ShotOutcome where
  written : Option Nat
  message : String
deriving DecidableEq

/-- GL_ScreenShot_f: scan quake00..quake99 for a free name; if none is free
(`i == 100`), print "Couldn't create a file" and return without writing;
otherwise write the file and report it. -/
def GL_ScreenShot_f (ex : Nat → Bool) : ShotOutcome :=
  match scanShot ex 0 100 with
  | some i => { written := some i, message := "Wrote " ++ picname i ++ "\n" }
  | none => { written := none, message := "SCR_ScreenShot_f: Couldn't create a file\n" }

/-- The set of existing screenshot files after the command ran: the old set plus
the file written, if one was written. -/
def filesAfterShot (ex : Nat → Bool) : Nat → Bool :=
  fun j => ex j || ((GL_ScreenShot_f ex).written == some j)

/-! ### Palette desaturation (gl_image.c): Draw_GetPalette DMP block -/

/-- The greatest pairwise gun distance `max(|r-g|, |g-b|, |b-r|)` named by the
spec as `max_gun_delta`. -/
def maxGunDelta (r g b : ℤ) : ℚ :=
  max |(r : ℚ) - (g : ℚ)| (max |(g : ℚ) - (b : ℚ)| |(b : ℚ) - (r : ℚ)|)

/-- The desaturation factor `sat` computed by the DMP block of Draw_GetPalette
(gl_image.c lines 1745-1763): `d1 = |r-g|`, `d2 = |g-b|`, `d3 = |b-r|`, the
nested ifs select the greatest, then `sat /= 255; sat = 1 - sat;
sat *= (1.0 - 0.75)`. This factor then scales dr, dg, db. -/
def dmp_sat_factor (r g b : ℤ) : ℚ :=
  let d1 : ℚ := |(r : ℚ) - (g : ℚ)|
  let d2 : ℚ := |(g : ℚ) - (b : ℚ)|
  let d3 : ℚ := |(b : ℚ) - (r : ℚ)|
  let sat : ℚ :=
    if d1 > d2 then (if d1 > d3 then d1 else (if d2 > d3 then d2 else d3))
    else (if d2 > d3 then d2 else d3)
  (1 - sat / 255) * (1 - 0.75)

/-! ### Image lookup (gl_image.c): GL_FindImage, with TGAPNG_TEX_LOADING
defined in myq2opts.h -/

/-- `imagetype_t` from gl_local.h; `it_skin` is the first (zero) enumerator. -/
inductive ImageType where
  | it_skin
  | it_sprite
  | it_wall
  | it_pic
  | it_sky
deriving DecidableEq, Repr

/-- COM_StripExtension: copy the name up to the first '.'. -/
def COM_StripExtension (name : String) : String :=
  String.mk (name.toList.takeWhile (fun c => c != '.'))

/-- The last four characters of a name, as compared by
`!strcmp(name + (len - 4), ".pcx")` in GL_FindImage. -/
def extOf (name : String) : String :=
  String.mk (name.toList.drop (name.length - 4))

/-- The filesystem/loader environment GL_FindImage runs against: whether
LoadPNG, LoadTGA, LoadPCX succeed for a path, and whether FS_LoadFile finds the
.wal file inside GL_LoadWal. -/
structure FindEnv where
  pngLoads : String → Bool
  tgaLoads : String → Bool
  pcxLoads : String → Bool
  walLoads : String → Bool

/-- The name of the generated placeholder texture (gl_rmisc.c line 127) that
GL_LoadWal returns when FS_LoadFile fails. -/
def r_notexture_name : String := "***r_notexture***"

/-- An environment in which every loader fails. -/
def noLoadEnv : FindEnv :=
  { pngLoads := fun _ => false, tgaLoads := fun _ => false,
    pcxLoads := fun _ => false, walLoads := fun _ => false }

/-- The cache scan of GL_FindImage (lines 1574-1599): walk the image slots in
order; in each slot compare the png name, then the tga name, then the name as
given; return the first slot that matches any of the three. -/
def findCacheSlot (cache : List String) (pngname tganame name : String) : Option String :=
  cache.find? (fun img => pngname == img || tganame == img || name == img)

/-- GL_FindImage (lines 1549-1664, TGAPNG_TEX_LOADING path): reject names
shorter than 5 characters; search the cache; otherwise try LoadPNG on the .png
variant, LoadTGA on the .tga variant, then the name as given — LoadPCX when it
ends in ".pcx" (NULL on failure), GL_LoadWal when it ends in ".wal"
(r_notexture on failure), NULL for any other extension.  The result is the
name the returned image carries. -/
def GL_FindImage (cache : List String) (env : FindEnv) (name : String) : Option String :=
  if name.length < 5 then none
  else
    let tganame := COM_StripExtension name ++ ".tga"
    let pngname := COM_StripExtension name ++ ".png"
    match findCacheSlot cache pngname tganame name with
    | some img => some img
    | none =>
      if env.pngLoads pngname then some pngname
      else if env.tgaLoads tganame then some tganame
      else if extOf name == ".pcx" then
        (if env.pcxLoads name then some name else none)
      else if extOf name == ".wal" then
        (if env.walLoads name then some name else some r_notexture_name)
      else none

/-! ### Unused-image sweep (gl_image.c): GL_FreeUnusedImages -/

/-- One slot of `gltextures`.  `isProtected` marks the slots the sweep refreshes
first (r_notexture and the r_particletexture entries). -/
structure GLImage where
  registration_sequence : Nat
  type : ImageType
  texnum : Nat
  isProtected : Bool
deriving DecidableEq, Repr

/-- `memset (image, 0, sizeof(*image))`: every field zeroed ( `it_skin` is the
zero enumerator). -/
def zeroImage : GLImage :=
  { registration_sequence := 0, type := ImageType.it_skin, texnum := 0,
    isProtected := false }

/-- The protection pass of GL_FreeUnusedImages (lines 1692-1697): r_notexture
and the particle textures get `registration_sequence = registration_sequence`. -/
def protectImage (cur : Nat) (img : GLImage) : GLImage :=
  if img.isProtected then { img with registration_sequence := cur } else img

/-- The per-slot decision of the sweep loop (lines 1699-1710): keep slots used
this sequence, free slots, and pics; zero everything else. -/
def sweepImage (cur : Nat) (img : GLImage) : GLImage :=
  if img.registration_sequence = cur then img
  else if img.registration_sequence = 0 then img
  else if img.type = ImageType.it_pic then img
  else zeroImage

/-- Whether the sweep loop frees (deletes and zeroes) this slot. -/
def freesImage (cur : Nat) (img : GLImage) : Bool :=
  decide (img.registration_sequence ≠ cur) &&
    decide (img.registration_sequence ≠ 0) &&
    decide (img.type ≠ ImageType.it_pic)

/-- GL_FreeUnusedImages over the whole slot array. -/
def GL_FreeUnusedImages (cur : Nat) (imgs : List GLImage) : List GLImage :=
  (imgs.map (protectImage cur)).map (sweepImage cur)

/-- How many slots a run of GL_FreeUnusedImages frees. -/
def freedCount (cur : Nat) (imgs : List GLImage) : Nat :=
  ((imgs.map (protectImage cur)).filter (freesImage cur)).length

/-! ### GL_LoadPic scrap path and GL_Upload8 (gl_image.c) -/

/-- The `has_alpha` value GL_Upload8 returns: build RGBA texels from the
palette (`trans[i] = d_8to24table[p]`) and call GL_Upload32 with bpp = 8.
The transparent-fringe pass (lines 1366-1384) rewrites only the rgb bytes of
index-255 texels, never the alpha byte the upload scan reads. -/
def GL_Upload8_has_alpha (d_8to24table : Nat → Pixel) (data : List Nat) : Bool :=
  GL_Upload32_has_alpha (data.map (fun p => d_8to24table p)) 8

/-- The `has_alpha` field GL_LoadPic stores (lines 1464-1500): a pic-type image
smaller than 64x64, 8 bits deep, that Scrap_AllocBlock places (`scrapOk`) gets
`image->has_alpha = true` with no pixel scan; every other image gets the
GL_Upload8 / GL_Upload32 scan result. -/
def GL_LoadPic_has_alpha (scrapOk : Bool) (typ : ImageType) (w h bits : Nat)
    (d_8to24table : Nat → Pixel) (pic8 : List Nat) (pic32 : List Pixel) : Bool :=
  if typ = ImageType.it_pic ∧ w < 64 ∧ h < 64 ∧ bits = 8 ∧ scrapOk = true then true
  else if bits = 8 then GL_Upload8_has_alpha d_8to24table pic8
  else GL_Upload32_has_alpha pic32 bits

/-! ### Water fragment shader (crates/myq2-renderer/shaders/water.frag.glsl) -/

/-- A GLSL vec4 color. -/
structure Vec4R where
  r : ℝ
  g : ℝ
  b : ℝ
  a : ℝ

/-- The FragUniforms block of water.frag.glsl. -/
structure WaterFragUniforms where
  u_Time : ℝ
  u_Alpha : ℝ
  u_IsFlowing : ℤ
  u_ScrollOffset : ℝ

/-- The warped sampling coordinate computed by water.frag.glsl main (lines
21-36): `sOffset = sin((ot*0.125 + u_Time) * 6.28318) * 8.0`, symmetrically for
t, `warpedCoord = ((os + sOffset)/64, (ot + tOffset)/64)`, and for flowing
surfaces `warpedCoord.s += u_ScrollOffset / 64.0`. -/
noncomputable def waterWarpCoord (u : WaterFragUniforms) (os ot : ℝ) : ℝ × ℝ :=
  let sOffset := Real.sin ((ot * 0.125 + u.u_Time) * 6.28318) * 8
  let tOffset := Real.sin ((os * 0.125 + u.u_Time) * 6.28318) * 8
  let s := (os + sOffset) / 64
  let t := (ot + tOffset) / 64
  (if u.u_IsFlowing ≠ 0 then s + u.u_ScrollOffset / 64 else s, t)

/-- water.frag.glsl main: sample the water texture at the warped coordinate and
emit its rgb with alpha `u_Alpha`. -/
noncomputable def waterFragMain (tex : ℝ × ℝ → Vec4R) (u : WaterFragUniforms)
    (vTexCoord : ℝ × ℝ) : Vec4R :=
  let wc := waterWarpCoord u vTexCoord.1 vTexCoord.2
  let waterColor := tex wc
  ⟨waterColor.r, waterColor.g, waterColor.b, u.u_Alpha⟩

/-! ### World fragment shader (crates/myq2-renderer/shaders/world.frag.glsl) -/

/-- The FragUniforms block of world.frag.glsl. -/
structure WorldFragUniforms where
  u_OverbrightScale : ℝ
  u_Fullbright : ℤ
  u_SaturateLighting : ℤ
  u_EnableDetail : ℤ
  u_DetailScale : ℝ
  u_EnableCaustics : ℤ
  u_CausticScroll : ℝ
  u_IsUnderwater : ℤ
  u_LightmapOnly : ℤ

/-- GLSL clamp(x, lo, hi). -/
noncomputable def clampR (x lo hi : ℝ) : ℝ := min (max x lo) hi

/-- world.frag.glsl main (lines 24-64): fullbright passthrough; optional
clamp of the lightmap sample to [0,1]; lightmap-only debug view; then
`color = diffuse.rgb * lightmap.rgb * u_OverbrightScale` with optional detail
(`color *= detail * 2`) and caustic (`color *= 1 + caustic * 0.3`) overlays;
output `vec4(color, diffuse.a)` with no further clamping. -/
noncomputable def worldFragMain (diffuseTex lightmapTex overlayTex : ℝ × ℝ → Vec4R)
    (u : WorldFragUniforms) (vTexCoord vLightmapCoord : ℝ × ℝ) : Vec4R :=
  let diffuse := diffuseTex vTexCoord
  if u.u_Fullbright ≠ 0 then diffuse
  else
    let lightmap0 := lightmapTex vLightmapCoord
    let lightmap : Vec4R :=
      if u.u_SaturateLighting ≠ 0 then
        ⟨clampR lightmap0.r 0 1, clampR lightmap0.g 0 1, clampR lightmap0.b 0 1,
         lightmap0.a⟩
      else lightmap0
    if u.u_LightmapOnly ≠ 0 then
      ⟨lightmap.r * u.u_OverbrightScale, lightmap.g * u.u_OverbrightScale,
       lightmap.b * u.u_OverbrightScale, 1⟩
    else
      let color0 : ℝ × ℝ × ℝ :=
        (diffuse.r * lightmap.r * u.u_OverbrightScale,
         diffuse.g * lightmap.g * u.u_OverbrightScale,
         diffuse.b * lightmap.b * u.u_OverbrightScale)
      let color1 : ℝ × ℝ × ℝ :=
        if u.u_EnableDetail ≠ 0 ∧ u.u_IsUnderwater = 0 then
          let detail := overlayTex (vTexCoord.1 * u.u_DetailScale,
            vTexCoord.2 * u.u_DetailScale)
          (color0.1 * (detail.r * 2), color0.2.1 * (detail.g * 2),
           color0.2.2 * (detail.b * 2))
        else color0
      let color2 : ℝ × ℝ × ℝ :=
        if u.u_EnableCaustics ≠ 0 ∧ u.u_IsUnderwater ≠ 0 then
          let caustic := overlayTex (vTexCoord.1 + u.u_CausticScroll,
            vTexCoord.2 + u.u_CausticScroll)
          (color1.1 * (1 + caustic.r * 0.3), color1.2.1 * (1 + caustic.g * 0.3),
           color1.2.2 * (1 + caustic.b * 0.3))
        else color1
      ⟨color2.1, color2.2.1, color2.2.2, diffuse.a⟩

/-! ### Sky vertex shader (the sky shader source, unnamed/part_008) -/

/-- A GLSL vec3. -/
structure Vec3R where
  x : ℝ
  y : ℝ
  z : ℝ

/-- A GLSL mat3 by its nine constructor arguments: the first three fill
column 0, the next three column 1, the last three column 2. -/
structure Mat3 where
  c0x : ℝ
  c0y : ℝ
  c0z : ℝ
  c1x : ℝ
  c1y : ℝ
  c1z : ℝ
  c2x : ℝ
  c2y : ℝ
  c2z : ℝ

/-- The rotationMatrix helper of the sky shader: axis-angle rotation built from
`s = sin(angle)`, `c = cos(angle)`, `oc = 1 - c`. -/
noncomputable def rotationMatrix (axis : Vec3R) (angle : ℝ) : Mat3 :=
  let s := Real.sin angle
  let c := Real.cos angle
  let oc := 1 - c
  ⟨oc * axis.x * axis.x + c, oc * axis.x * axis.y - axis.z * s,
   oc * axis.z * axis.x + axis.y * s,
   oc * axis.x * axis.y + axis.z * s, oc * axis.y * axis.y + c,
   oc * axis.y * axis.z - axis.x * s,
   oc * axis.z * axis.x - axis.y * s, oc * axis.y * axis.z + axis.x * s,
   oc * axis.z * axis.z + c⟩

/-- GLSL mat3-times-vec3 (column-major). -/
noncomputable def mat3MulVec (m : Mat3) (v : Vec3R) : Vec3R :=
  ⟨m.c0x * v.x + m.c1x * v.y + m.c2x * v.z,
   m.c0y * v.x + m.c1y * v.y + m.c2y * v.z,
   m.c0z * v.x + m.c1z * v.y + m.c2z * v.z⟩

/-- GLSL normalize. -/
noncomputable def normalizeV (v : Vec3R) : Vec3R :=
  let len := Real.sqrt (v.x * v.x + v.y * v.y + v.z * v.z)
  ⟨v.x / len, v.y / len, v.z / len⟩

/-- GLSL radians. -/
noncomputable def radiansR (d : ℝ) : ℝ := d * (Real.pi / 180)

/-- The sky shader main: `angle = radians(u_SkyRotate * u_Time)`,
`rot = rotationMatrix(normalize(u_SkyAxis), angle)`, `v_TexCoord = rot * a_Position`. -/
noncomputable def skyTexCoord (skyAxis : Vec3R) (skyRotate time : ℝ) (aPos : Vec3R) : Vec3R :=
  mat3MulVec (rotationMatrix (normalizeV skyAxis) (radiansR (skyRotate * time))) aPos

end MyQ2

namespace MyQ2

theorem scanAlphaSamples_eq_alpha_iff (data : List Pixel) :
    scanAlphaSamples data = gl_alpha_format ↔ ∃ p ∈ data, p.a ≠ 255 := by
  induction data with
  | nil => simp [scanAlphaSamples, gl_alpha_format, gl_solid_format]
  | cons p rest ih =>
    by_cases h : p.a ≠ 255
    · rw [show scanAlphaSamples (p :: rest) = if p.a ≠ 255 then gl_alpha_format
          else scanAlphaSamples rest from rfl, if_pos h]
      exact iff_of_true rfl ⟨p, List.mem_cons_self p rest, h⟩
    · have ha : p.a = 255 := not_not.mp h
      rw [show scanAlphaSamples (p :: rest) = if p.a ≠ 255 then gl_alpha_format
          else scanAlphaSamples rest from rfl, if_neg h, ih]
      constructor
      · rintro ⟨q, hq, hqa⟩
        exact ⟨q, List.mem_cons_of_mem p hq, hqa⟩
      · rintro ⟨q, hq, hqa⟩
        rcases List.mem_cons.mp hq with rfl | hq2
        · exact absurd ha hqa
        · exact ⟨q, hq2, hqa⟩

/-- C1: through the 32-bit upload path (`bpp = 32`, so the `bpp != 24` scan runs),
GL_Upload32 reports alpha-format exactly when some pixel's alpha byte is not 255;
an 8x8 image of pixels {200,100,50,255} gives has_alpha = false, and the same
image with one pixel's alpha set to 128 gives has_alpha = true. -/
theorem C1_upload32_alpha_classification :
    (∀ data : List Pixel,
      GL_Upload32_has_alpha data 32 = true ↔ ∃ p ∈ data, p.a ≠ 255) ∧
    GL_Upload32_has_alpha (List.replicate 64 ⟨200, 100, 50, 255⟩) 32 = false ∧
    GL_Upload32_has_alpha
      (⟨200, 100, 50, 128⟩ :: List.replicate 63 ⟨200, 100, 50, 255⟩) 32 = true := by
  refine ⟨fun data => ?_, by decide, by decide⟩
  rw [GL_Upload32_has_alpha, GL_Upload32_samples, if_pos (by decide)]
  rw [beq_iff_eq]
  exact scanAlphaSamples_eq_alpha_iff data

theorem foldl_add_refl_eq_take (zs : List ℚ) (d : List ℚ) :
    zs.foldl R_add_refl (d.take MAX_REFL) =
      (zs.foldl (fun acc z => if z ∈ acc then acc else acc ++ [z]) d).take MAX_REFL := by
  induction zs generalizing d with
  | nil => simp
  | cons z rest ih =>
    simp only [List.foldl_cons]
    have hstep : R_add_refl (d.take MAX_REFL) z =
        ((if z ∈ d then d else d ++ [z]).take MAX_REFL) := by
      by_cases hz : z ∈ d
      · rw [if_pos hz]
        by_cases hmem : z ∈ d.take MAX_REFL
        · simp [R_add_refl, hmem]
        · have hlen2 : ¬ (d.take MAX_REFL).length < MAX_REFL := by
            rw [List.length_take]
            intro hlt
            have hdlen : d.length < MAX_REFL := by omega
            rw [List.take_of_length_le hdlen.le] at hmem
            exact hmem hz
          simp only [R_add_refl, if_neg hmem, if_neg hlen2]
      · rw [if_neg hz]
        by_cases hlen : d.length < MAX_REFL
        · have hd : d.take MAX_REFL = d := List.take_of_length_le hlen.le
          have hlen3 : (d ++ [z]).length ≤ MAX_REFL := by
            rw [List.length_append, List.length_singleton]
            omega
          have hdz : (d ++ [z]).take MAX_REFL = d ++ [z] := List.take_of_length_le hlen3
          have hmem : z ∉ d.take MAX_REFL := by rw [hd]; exact hz
          have hlen2 : (d.take MAX_REFL).length < MAX_REFL := by rw [hd]; exact hlen
          rw [hdz]
          simp only [R_add_refl, if_neg hmem, if_pos hlen2, hd]
          rw [if_neg hz, if_pos hlen]
        · have hmem : z ∉ d.take MAX_REFL := fun h => hz (List.mem_of_mem_take h)
          have hlen2 : ¬ (d.take MAX_REFL).length < MAX_REFL := by
            rw [List.length_take]
            omega
          have htake : (d ++ [z]).take MAX_REFL = d.take MAX_REFL :=
            List.take_append_of_le_length (by omega)
          rw [htake]
          simp only [R_add_refl, if_neg hmem, if_neg hlen2]
    rw [hstep]
    exact ih (if z ∈ d then d else d ++ [z])

theorem discoveryOrder_nodup_aux (zs : List ℚ) (d : List ℚ) (hd : d.Nodup) :
    (zs.foldl (fun acc z => if z ∈ acc then acc else acc ++ [z]) d).Nodup := by
  induction zs generalizing d with
  | nil => simpa
  | cons z rest ih =>
    simp only [List.foldl_cons]
    by_cases hz : z ∈ d
    · rw [if_pos hz]; exact ih d hd
    · rw [if_neg hz]
      exact ih (d ++ [z]) (by simp [List.nodup_append, hd, hz])

/-- C2: the reflector list built by R_clear_refl / R_add_refl is exactly the
first-discovery-order deduplicated sequence truncated at MAX_REFL = 2; hence it
is always duplicate-free with length at most 2, a duplicate Z leaves the list
unchanged, a new Z is dropped when the list is full, and otherwise appended. -/
theorem C2_refl_list_invariant :
    (∀ zs : List ℚ, runReflCalls zs = (discoveryOrder zs).take MAX_REFL) ∧
    (∀ zs : List ℚ, (runReflCalls zs).Nodup ∧ (runReflCalls zs).length ≤ MAX_REFL) ∧
    (∀ (l : List ℚ) (Z : ℚ), Z ∈ l → R_add_refl l Z = l) ∧
    (∀ (l : List ℚ) (Z : ℚ), Z ∉ l → ¬ l.length < MAX_REFL → R_add_refl l Z = l) ∧
    (∀ (l : List ℚ) (Z : ℚ), Z ∉ l → l.length < MAX_REFL → R_add_refl l Z = l ++ [Z]) := by
  have hrun : ∀ zs : List ℚ, runReflCalls zs = (discoveryOrder zs).take MAX_REFL := by
    intro zs
    have h := foldl_add_refl_eq_take zs []
    simpa [runReflCalls, R_clear_refl, discoveryOrder] using h
  refine ⟨hrun, fun zs => ?_, ?_, ?_, ?_⟩
  · constructor
    · rw [hrun]
      exact (discoveryOrder_nodup_aux zs [] (by simp)).sublist (List.take_sublist _ _)
    · rw [hrun]
      exact List.length_take_le MAX_REFL (discoveryOrder zs)
  · intro l Z h
    simp [R_add_refl, h]
  · intro l Z h hlen
    simp [R_add_refl, h, hlen]
  · intro l Z h hlen
    simp [R_add_refl, h, hlen]

theorem scanShot_some_spec (ex : Nat → Bool) :
    ∀ (fuel i k : Nat), scanShot ex i fuel = some k →
      i ≤ k ∧ k < i + fuel ∧ ex k = false ∧ ∀ j, i ≤ j → j < k → ex j = true := by
  intro fuel
  induction fuel with
  | zero =>
    intro i k h
    simp [scanShot] at h
  | succ n ih =>
    intro i k h
    rw [show scanShot ex i (n + 1) = if ex i then scanShot ex (i + 1) n else some i
        from rfl] at h
    by_cases hi : ex i = true
    · rw [if_pos hi] at h
      obtain ⟨h1, h2, h3, h4⟩ := ih (i + 1) k h
      refine ⟨by omega, by omega, h3, ?_⟩
      intro j hj1 hj2
      by_cases hji : j = i
      · subst hji
        exact hi
      · exact h4 j (by omega) hj2
    · rw [if_neg hi] at h
      obtain rfl := Option.some.inj h
      refine ⟨le_refl i, by omega, by simpa using hi, ?_⟩
      intro j hj1 hj2
      omega

theorem scanShot_none_iff (ex : Nat → Bool) :
    ∀ (fuel i : Nat), scanShot ex i fuel = none ↔
      ∀ j, i ≤ j → j < i + fuel → ex j = true := by
  intro fuel
  induction fuel with
  | zero =>
    intro i
    constructor
    · intro _ j hj1 hj2
      omega
    · intro _
      rfl
  | succ n ih =>
    intro i
    rw [show scanShot ex i (n + 1) = if ex i then scanShot ex (i + 1) n else some i
        from rfl]
    by_cases hi : ex i = true
    · rw [if_pos hi, ih (i + 1)]
      constructor
      · intro h j hj1 hj2
        by_cases hji : j = i
        · subst hji
          exact hi
        · exact h j (by omega) (by omega)
      · intro h j hj1 hj2
        exact h j (by omega) (by omega)
    · rw [if_neg hi]
      constructor
      · intro h
        exact absurd h (by simp)
      · intro h
        exact absurd (h i (le_refl i) (by omega)) hi

/-- C3: the screenshot command writes to the first name quakeNN (NN scanned
00..99 in increasing order) for which no file exists; if quake00..quake99 all
exist it fails with "Couldn't create a file" and the set of existing files is
unchanged; with quake00..quake04 present it produces quake05.tga. -/
theorem C3_screenshot_naming :
    (∀ (ex : Nat → Bool) (k : Nat), (GL_ScreenShot_f ex).written = some k →
      k < 100 ∧ ex k = false ∧ ∀ j, j < k → ex j = true) ∧
    (∀ ex : Nat → Bool, (∀ j, j < 100 → ex j = true) →
      (GL_ScreenShot_f ex).written = none ∧
      (GL_ScreenShot_f ex).message = "SCR_ScreenShot_f: Couldn't create a file\n" ∧
      filesAfterShot ex = ex) ∧
    GL_ScreenShot_f (fun i => decide (i < 5)) =
      { written := some 5, message := "Wrote quake05.tga\n" } := by
  refine ⟨?_, ?_, ?_⟩
  · intro ex k h
    rw [GL_ScreenShot_f] at h
    cases hscan : scanShot ex 0 100 with
    | none =>
      rw [hscan] at h
      simp at h
    | some m =>
      rw [hscan] at h
      simp only [Option.some.injEq] at h
      subst h
      obtain ⟨h1, h2, h3, h4⟩ := scanShot_some_spec ex 100 0 m hscan
      exact ⟨by omega, h3, fun j hj => h4 j (Nat.zero_le j) hj⟩
  · intro ex hall
    have hnone : scanShot ex 0 100 = none :=
      (scanShot_none_iff ex 100 0).mpr (fun j _ hj2 => hall j (by omega))
    have hw : (GL_ScreenShot_f ex).written = none := by
      rw [GL_ScreenShot_f, hnone]
    have hm : (GL_ScreenShot_f ex).message =
        "SCR_ScreenShot_f: Couldn't create a file\n" := by
      rw [GL_ScreenShot_f, hnone]
    refine ⟨hw, hm, ?_⟩
    funext j
    simp [filesAfterShot, hw]
  · decide

/-- Witness for C3: quake00..quake99 all present makes the command fail with the
exact message and change nothing. -/
theorem C3_screenshot_naming_witness :
    (GL_ScreenShot_f (fun _ => true)).written = none ∧
    (GL_ScreenShot_f (fun _ => true)).message =
      "SCR_ScreenShot_f: Couldn't create a file\n" := by
  have h := C3_screenshot_naming.2.1 (fun _ => true) (fun j _ => rfl)
  exact ⟨h.1, h.2.1⟩

theorem nested_max_select (a b c : ℚ) :
    (if a > b then (if a > c then a else (if b > c then b else c))
     else (if b > c then b else c)) = max a (max b c) := by
  split_ifs <;> rw [max_def, max_def] <;> split_ifs <;> linarith

/-- C4 counterexample: at the palette entry (0,0,0) the code's factor is 0.25
while the claimed formula 1 - (max_gun_delta/255)*0.25 gives 1. -/
theorem C4_counterexample :
    dmp_sat_factor 0 0 0 ≠ 1 - (maxGunDelta 0 0 0 / 255) * 0.25 := by
  norm_num [dmp_sat_factor, maxGunDelta]

/-- C4 (amended): the desaturation factor applied to the per-gun distances from
the grey average equals (1 - max_gun_delta/255) * 0.25, where max_gun_delta is
the greatest pairwise distance among |r-g|, |g-b|, |b-r|. -/
theorem C4_palette_desaturation_amended (r g b : ℤ) :
    dmp_sat_factor r g b = (1 - maxGunDelta r g b / 255) * 0.25 := by
  simp only [dmp_sat_factor, maxGunDelta]
  rw [nested_max_select]
  norm_num

/-- C7 counterexample: a ".wal" name none of whose variants loads yields the
r_notexture placeholder image, not "no image" as the claim states. -/
theorem C7_counterexample :
    GL_FindImage [] noLoadEnv "w.wal" = some r_notexture_name ∧
    GL_FindImage [] noLoadEnv "w.wal" ≠ none := by
  refine ⟨?_, ?_⟩ <;> decide

/-- C7 (amended): with a name of length at least 5, a cache hit returns the
first slot matching the png variant, tga variant, or the name as given; on a
cache miss resolution tries the .png variant, then the .tga variant, then the
name as given when it ends in ".pcx" (no image if LoadPCX fails) or ".wal"
(the r_notexture placeholder if the .wal load fails); any other extension with
both png and tga failing yields no image. -/
theorem C7_find_image_amended (cache : List String) (env : FindEnv) (name : String)
    (h5 : ¬ name.length < 5) :
    (∀ img, findCacheSlot cache (COM_StripExtension name ++ ".png")
        (COM_StripExtension name ++ ".tga") name = some img →
      GL_FindImage cache env name = some img) ∧
    (findCacheSlot cache (COM_StripExtension name ++ ".png")
        (COM_StripExtension name ++ ".tga") name = none →
      (env.pngLoads (COM_StripExtension name ++ ".png") = true →
        GL_FindImage cache env name = some (COM_StripExtension name ++ ".png")) ∧
      (env.pngLoads (COM_StripExtension name ++ ".png") = false →
       env.tgaLoads (COM_StripExtension name ++ ".tga") = true →
        GL_FindImage cache env name = some (COM_StripExtension name ++ ".tga")) ∧
      (env.pngLoads (COM_StripExtension name ++ ".png") = false →
       env.tgaLoads (COM_StripExtension name ++ ".tga") = false →
       extOf name = ".pcx" →
        GL_FindImage cache env name =
          (if env.pcxLoads name then some name else none)) ∧
      (env.pngLoads (COM_StripExtension name ++ ".png") = false →
       env.tgaLoads (COM_StripExtension name ++ ".tga") = false →
       extOf name ≠ ".pcx" → extOf name = ".wal" →
        GL_FindImage cache env name =
          (if env.walLoads name then some name else some r_notexture_name)) ∧
      (env.pngLoads (COM_StripExtension name ++ ".png") = false →
       env.tgaLoads (COM_StripExtension name ++ ".tga") = false →
       extOf name ≠ ".pcx" → extOf name ≠ ".wal" →
        GL_FindImage cache env name = none)) := by
  have hunf : GL_FindImage cache env name =
      match findCacheSlot cache (COM_StripExtension name ++ ".png")
          (COM_StripExtension name ++ ".tga") name with
      | some img => some img
      | none =>
        if env.pngLoads (COM_StripExtension name ++ ".png") then
          some (COM_StripExtension name ++ ".png")
        else if env.tgaLoads (COM_StripExtension name ++ ".tga") then
          some (COM_StripExtension name ++ ".tga")
        else if extOf name == ".pcx" then
          (if env.pcxLoads name then some name else none)
        else if extOf name == ".wal" then
          (if env.walLoads name then some name else some r_notexture_name)
        else none := by
    rw [GL_FindImage, if_neg h5]
  constructor
  · intro img hc
    rw [hunf, hc]
  · intro hc
    rw [hunf, hc]
    refine ⟨?_, ?_, ?_, ?_, ?_⟩
    · intro hpng
      rw [if_pos hpng]
    · intro hpng htga
      rw [if_neg (by simp [hpng]), if_pos htga]
    · intro hpng htga hpcx
      rw [if_neg (by simp [hpng]), if_neg (by simp [htga]),
        if_pos (by simp [hpcx])]
    · intro hpng htga hpcx hwal
      rw [if_neg (by simp [hpng]), if_neg (by simp [htga]),
        if_neg (by simp [hpcx]), if_pos (by simp [hwal])]
    · intro hpng htga hpcx hwal
      rw [if_neg (by simp [hpng]), if_neg (by simp [htga]),
        if_neg (by simp [hpcx]), if_neg (by simp [hwal])]

/-- Witness for C7: a ".pcx" request whose .png variant loads resolves to the
.png name; a cached tga slot is returned for a ".pcx" request. -/
theorem C7_find_image_amended_witness :
    GL_FindImage []
      { noLoadEnv with pngLoads := fun s => s == "pics/a.png" } "pics/a.pcx" =
      some "pics/a.png" ∧
    GL_FindImage ["pics/a.tga"] noLoadEnv "pics/a.pcx" = some "pics/a.tga" := by
  constructor
  · exact ((C7_find_image_amended []
      { noLoadEnv with pngLoads := fun s => s == "pics/a.png" } "pics/a.pcx"
      (by decide)).2 (by decide)).1 (by decide)
  · exact (C7_find_image_amended ["pics/a.tga"] noLoadEnv "pics/a.pcx"
      (by decide)).1 "pics/a.tga" (by decide)

theorem sweepImage_protect_fixed (cur : Nat) (img : GLImage) :
    sweepImage cur (protectImage cur (sweepImage cur (protectImage cur img))) =
      sweepImage cur (protectImage cur img) ∧
    freesImage cur (protectImage cur (sweepImage cur (protectImage cur img))) = false := by
  by_cases hp : img.isProtected
  · have h1 : protectImage cur img = { img with registration_sequence := cur } := by
      rw [protectImage, if_pos hp]
    have h2 : sweepImage cur { img with registration_sequence := cur } =
        { img with registration_sequence := cur } := by
      rw [sweepImage, if_pos rfl]
    rw [h1, h2]
    have h3 : protectImage cur { img with registration_sequence := cur } =
        { img with registration_sequence := cur } := by
      rw [protectImage]
      split_ifs <;> rfl
    rw [h3, h2]
    refine ⟨rfl, ?_⟩
    simp [freesImage]
  · have h1 : protectImage cur img = img := by rw [protectImage, if_neg hp]
    rw [h1]
    by_cases hc : img.registration_sequence = cur
    · have h2 : sweepImage cur img = img := by rw [sweepImage, if_pos hc]
      rw [h2, h1, h2]
      exact ⟨rfl, by simp [freesImage, hc]⟩
    · by_cases h0 : img.registration_sequence = 0
      · have h2 : sweepImage cur img = img := by
          rw [sweepImage, if_neg hc, if_pos h0]
        rw [h2, h1, h2]
        exact ⟨rfl, by simp [freesImage, h0]⟩
      · by_cases hpic : img.type = ImageType.it_pic
        · have h2 : sweepImage cur img = img := by
            rw [sweepImage, if_neg hc, if_neg h0, if_pos hpic]
          rw [h2, h1, h2]
          exact ⟨rfl, by simp [freesImage, hpic]⟩
        · have h2 : sweepImage cur img = zeroImage := by
            rw [sweepImage, if_neg hc, if_neg h0, if_neg hpic]
          have h3 : protectImage cur zeroImage = zeroImage := by
            rw [protectImage, if_neg (by rw [zeroImage]; exact Bool.false_ne_true)]
          have h4 : sweepImage cur zeroImage = zeroImage := by
            rw [sweepImage]
            by_cases hz : (0 : Nat) = cur
            · rw [if_pos (by rw [zeroImage]; exact hz)]
            · rw [if_neg (by rw [zeroImage]; exact hz), if_pos (by rw [zeroImage])]
          rw [h2, h3, h4]
          refine ⟨rfl, ?_⟩
          simp [freesImage, zeroImage]

/-- C8: sweeping unused images is idempotent — a second GL_FreeUnusedImages run
with no intervening registrations returns the cache unchanged, frees no slot,
and keeps the slot count. -/
theorem C8_sweep_idempotent (cur : Nat) (imgs : List GLImage) :
    GL_FreeUnusedImages cur (GL_FreeUnusedImages cur imgs) =
      GL_FreeUnusedImages cur imgs ∧
    freedCount cur (GL_FreeUnusedImages cur imgs) = 0 ∧
    (GL_FreeUnusedImages cur imgs).length = imgs.length := by
  refine ⟨?_, ?_, by simp [GL_FreeUnusedImages]⟩
  · unfold GL_FreeUnusedImages
    induction imgs with
    | nil => rfl
    | cons x xs ih =>
      simp only [List.map_cons, List.map_map] at ih ⊢
      rw [List.cons.injEq] -- split head and tail
      exact ⟨(sweepImage_protect_fixed cur x).1, ih⟩
  · unfold freedCount GL_FreeUnusedImages
    rw [List.length_eq_zero, List.filter_eq_nil_iff]
    intro a ha
    simp only [List.mem_map, List.map_map] at ha
    obtain ⟨x, _, rfl⟩ := ha
    simp only [Function.comp_apply]
    rw [(sweepImage_protect_fixed cur x).2]
    exact Bool.false_ne_true

/-- C10: an 8-bit pic-type image smaller than 64x64 in both dimensions that
Scrap_AllocBlock places into the atlas gets has_alpha = true unconditionally,
for every palette table and every pixel content. -/
theorem C10_scrap_pic_has_alpha (d_8to24table : Nat → Pixel) (pic8 : List Nat)
    (pic32 : List Pixel) (w h : Nat) (hw : w < 64) (hh : h < 64) :
    GL_LoadPic_has_alpha true ImageType.it_pic w h 8 d_8to24table pic8 pic32 = true := by
  rw [GL_LoadPic_has_alpha, if_pos ⟨rfl, hw, hh, rfl, rfl⟩]

/-- Witness for C10: an all-opaque 8x8 pic whose pixel scan would report
has_alpha = false still gets has_alpha = true through the scrap path. -/
theorem C10_scrap_pic_has_alpha_witness :
    GL_Upload8_has_alpha (fun _ => ⟨0, 0, 0, 255⟩) (List.replicate 64 0) = false ∧
    GL_LoadPic_has_alpha true ImageType.it_pic 8 8 8 (fun _ => ⟨0, 0, 0, 255⟩)
      (List.replicate 64 0) [] = true := by
  constructor
  · decide
  · exact C10_scrap_pic_has_alpha (fun _ => ⟨0, 0, 0, 255⟩) (List.replicate 64 0) []
      8 8 (by decide) (by decide)

/-- C5 counterexample: for a flowing surface (u_IsFlowing = 1, u_ScrollOffset =
64) at (s,t) = (0,0), time 0, the shader samples s-coordinate 1, while the
claimed formula (s + sin((t*0.125 + time)*2*pi)*8)/64 gives 0. -/
theorem C5_counterexample :
    (waterWarpCoord
        { u_Time := 0, u_Alpha := 0, u_IsFlowing := 1, u_ScrollOffset := 64 } 0 0).1 ≠
      (0 + Real.sin ((0 * 0.125 + 0) * (2 * Real.pi)) * 8) / 64 := by
  norm_num [waterWarpCoord, Real.sin_zero]

/-- C5 (amended): the water pass samples at s' = (s + sin((t*0.125 +
time)*6.28318)*8)/64 and t' = (t + sin((s*0.125 + time)*6.28318)*8)/64 (the
shader writes 2*pi as the literal 6.28318), with u_ScrollOffset/64 additionally
added to s' when the surface is flowing; the output alpha always equals the
texinfo-supplied u_Alpha. -/
theorem C5_water_warp_amended :
    (∀ (tex : ℝ × ℝ → Vec4R) (u : WaterFragUniforms) (os ot : ℝ),
      u.u_IsFlowing = 0 →
      waterFragMain tex u (os, ot) =
        (let sp := (os + Real.sin ((ot * 0.125 + u.u_Time) * 6.28318) * 8) / 64
         let tp := (ot + Real.sin ((os * 0.125 + u.u_Time) * 6.28318) * 8) / 64
         ⟨(tex (sp, tp)).r, (tex (sp, tp)).g, (tex (sp, tp)).b, u.u_Alpha⟩)) ∧
    (∀ (tex : ℝ × ℝ → Vec4R) (u : WaterFragUniforms) (os ot : ℝ),
      u.u_IsFlowing ≠ 0 →
      waterFragMain tex u (os, ot) =
        (let sp := (os + Real.sin ((ot * 0.125 + u.u_Time) * 6.28318) * 8) / 64 +
           u.u_ScrollOffset / 64
         let tp := (ot + Real.sin ((os * 0.125 + u.u_Time) * 6.28318) * 8) / 64
         ⟨(tex (sp, tp)).r, (tex (sp, tp)).g, (tex (sp, tp)).b, u.u_Alpha⟩)) ∧
    (∀ (tex : ℝ × ℝ → Vec4R) (u : WaterFragUniforms) (tc : ℝ × ℝ),
      (waterFragMain tex u tc).a = u.u_Alpha) := by
  refine ⟨?_, ?_, ?_⟩
  · intro tex u os ot h
    simp [waterFragMain, waterWarpCoord, h]
  · intro tex u os ot h
    simp [waterFragMain, waterWarpCoord, h]
  · intro tex u tc
    simp [waterFragMain]

/-- Witness for C5: a non-flowing surface with a constant texture and
u_Alpha = 5 emits the texture rgb with alpha 5. -/
theorem C5_water_warp_amended_witness :
    waterFragMain (fun _ => ⟨1, 2, 3, 4⟩)
      { u_Time := 0, u_Alpha := 5, u_IsFlowing := 0, u_ScrollOffset := 0 } (0, 0) =
      ⟨1, 2, 3, 5⟩ := by
  rw [C5_water_warp_amended.1 (fun _ => ⟨1, 2, 3, 4⟩)
    { u_Time := 0, u_Alpha := 5, u_IsFlowing := 0, u_ScrollOffset := 0 } 0 0 rfl]

/-- C6 counterexample: with overbright factor 2 (> 1, in {1,2,4}), diffuse and
lightmap both all-ones, the shader outputs channel value 2, which exceeds the
diffuse-times-lightmap product clamped to 1.0 — no saturation is applied. -/
theorem C6_counterexample :
    ((2 : ℝ) > 1) ∧
    ¬ ((worldFragMain (fun _ => ⟨1, 1, 1, 1⟩) (fun _ => ⟨1, 1, 1, 1⟩)
        (fun _ => ⟨0, 0, 0, 0⟩)
        { u_OverbrightScale := 2, u_Fullbright := 0, u_SaturateLighting := 0,
          u_EnableDetail := 0, u_DetailScale := 8, u_EnableCaustics := 0,
          u_CausticScroll := 0, u_IsUnderwater := 0, u_LightmapOnly := 0 }
        (0, 0) (0, 0)).r ≤ clampR ((1 : ℝ) * 1) 0 1) := by
  constructor
  · norm_num
  · norm_num [worldFragMain, clampR]

/-- C6 (amended): lightmap sampling is followed by a scalar multiply with the
u_OverbrightScale factor (documented as 1, 2, or 4), and the shader applies no
saturation to the product: with the overlay and debug paths disabled the output
color is exactly diffuse*lightmap*factor per channel (the optional
u_SaturateLighting flag clamps only the lightmap sample to [0,1] before the
multiply), with alpha from the diffuse sample; so a factor above 1 can push a
channel beyond the diffuse-times-lightmap product clamped to 1.0. -/
theorem C6_overbright_amended (diffuseTex lightmapTex overlayTex : ℝ × ℝ → Vec4R)
    (u : WorldFragUniforms) (vTexCoord vLightmapCoord : ℝ × ℝ)
    (hf : u.u_Fullbright = 0) (hl : u.u_LightmapOnly = 0)
    (hd : u.u_EnableDetail = 0) (hc : u.u_EnableCaustics = 0) :
    (u.u_SaturateLighting = 0 →
      worldFragMain diffuseTex lightmapTex overlayTex u vTexCoord vLightmapCoord =
        ⟨(diffuseTex vTexCoord).r * (lightmapTex vLightmapCoord).r * u.u_OverbrightScale,
         (diffuseTex vTexCoord).g * (lightmapTex vLightmapCoord).g * u.u_OverbrightScale,
         (diffuseTex vTexCoord).b * (lightmapTex vLightmapCoord).b * u.u_OverbrightScale,
         (diffuseTex vTexCoord).a⟩) ∧
    (u.u_SaturateLighting ≠ 0 →
      worldFragMain diffuseTex lightmapTex overlayTex u vTexCoord vLightmapCoord =
        ⟨(diffuseTex vTexCoord).r * clampR (lightmapTex vLightmapCoord).r 0 1 *
           u.u_OverbrightScale,
         (diffuseTex vTexCoord).g * clampR (lightmapTex vLightmapCoord).g 0 1 *
           u.u_OverbrightScale,
         (diffuseTex vTexCoord).b * clampR (lightmapTex vLightmapCoord).b 0 1 *
           u.u_OverbrightScale,
         (diffuseTex vTexCoord).a⟩) := by
  constructor
  · intro hs
    simp [worldFragMain, hf, hl, hd, hc, hs]
  · intro hs
    simp [worldFragMain, hf, hl, hd, hc, hs]

/-- Witness for C6: factor 4 with all-ones diffuse and lightmap gives output
(4,4,4,1). -/
theorem C6_overbright_amended_witness :
    worldFragMain (fun _ => ⟨1, 1, 1, 1⟩) (fun _ => ⟨1, 1, 1, 1⟩)
      (fun _ => ⟨0, 0, 0, 0⟩)
      { u_OverbrightScale := 4, u_Fullbright := 0, u_SaturateLighting := 0,
        u_EnableDetail := 0, u_DetailScale := 8, u_EnableCaustics := 0,
        u_CausticScroll := 0, u_IsUnderwater := 0, u_LightmapOnly := 0 }
      (0, 0) (0, 0) = ⟨4, 4, 4, 1⟩ := by
  rw [(C6_overbright_amended (fun _ => ⟨1, 1, 1, 1⟩) (fun _ => ⟨1, 1, 1, 1⟩)
    (fun _ => ⟨0, 0, 0, 0⟩) _ (0, 0) (0, 0) rfl rfl rfl rfl).1 rfl]
  norm_num [Vec4R.mk.injEq]

/-- C9: the sky shader normalizes the supplied rotation axis before building
the rotation matrix — with the non-unit axis (0,0,2) every sampled texture
coordinate equals the one computed for the unit axis (0,0,1), while using
(0,0,2) exactly as supplied (as the claim and the spec's parity note require)
would give a different rotation matrix, e.g. at a quarter turn. -/
theorem C9_sky_axis_normalized :
    (∀ (skyRotate time : ℝ) (p : Vec3R),
      skyTexCoord ⟨0, 0, 2⟩ skyRotate time p = skyTexCoord ⟨0, 0, 1⟩ skyRotate time p) ∧
    rotationMatrix ⟨0, 0, 2⟩ (Real.pi / 2) ≠ rotationMatrix ⟨0, 0, 1⟩ (Real.pi / 2) := by
  have h4 : Real.sqrt ((0 : ℝ) * 0 + 0 * 0 + 2 * 2) = 2 := by
    rw [show ((0 : ℝ) * 0 + 0 * 0 + 2 * 2) = 2 ^ 2 by norm_num]
    exact Real.sqrt_sq (by norm_num)
  have h1 : Real.sqrt ((0 : ℝ) * 0 + 0 * 0 + 1 * 1) = 1 := by
    rw [show ((0 : ℝ) * 0 + 0 * 0 + 1 * 1) = 1 ^ 2 by norm_num]
    exact Real.sqrt_sq (by norm_num)
  have hnorm2 : normalizeV ⟨0, 0, 2⟩ = (⟨0, 0, 1⟩ : Vec3R) := by
    simp only [normalizeV, h4]
    norm_num
  have hnorm1 : normalizeV ⟨0, 0, 1⟩ = (⟨0, 0, 1⟩ : Vec3R) := by
    simp only [normalizeV, h1]
    norm_num
  constructor
  · intro r t p
    rw [skyTexCoord, skyTexCoord, hnorm2, hnorm1]
  · intro h
    have h22 := congrArg Mat3.c2z h
    norm_num [rotationMatrix, Real.cos_pi_div_two] at h22

/-- Witness for C2: concrete applications of the three branch behaviors and of
the run characterization. -/
theorem C2_refl_list_invariant_witness :
    R_add_refl [5, 7] 5 = [5, 7] ∧
    R_add_refl [5, 7] 9 = [5, 7] ∧
    R_add_refl [5] 7 = [5, 7] ∧
    runReflCalls [5, 7, 5, 9] = [5, 7] := by
  refine ⟨?_, ?_, ?_, ?_⟩
  · exact C2_refl_list_invariant.2.2.1 [5, 7] 5 (by decide)
  · exact C2_refl_list_invariant.2.2.2.1 [5, 7] 9 (by decide) (by decide)
  · exact C2_refl_list_invariant.2.2.2.2 [5] 7 (by decide) (by decide)
  · rw [C2_refl_list_invariant.1 [5, 7, 5, 9]]
    decide

end MyQ2
